import Mathlib

/-!
Shallow embedding of the terrain, building-registry and player-locomotion
core of the skyrim-vibecode repository (src/components/World.ts and
src/components/Player.js), together with theorems settling the frozen
claims about it.  Numbers are modelled by the rationals; the external
noise library (SimplexNoise seeded through seedrandom) and the square
root inside THREE.Vector2.distanceTo are modelled as function parameters,
since neither is code of this repository.
-/

namespace SkyrimVibe

/-- Vector with three rational components, modelling THREE.Vector3. -/
structure Vec3 where
  x : ℚ
  y : ℚ
  z : ℚ
  deriving DecidableEq, Repr

/-- Componentwise addition of vectors. -/
def vadd (a b : Vec3) : Vec3 := ⟨a.x + b.x, a.y + b.y, a.z + b.z⟩

/-- Scaling of a vector by a rational. -/
def vscale (c : ℚ) (a : Vec3) : Vec3 := ⟨c * a.x, c * a.y, c * a.z⟩

/-! ## World: terrain height field (src/components/World.ts) -/

/-- World record: grid size (the constructor sets 200) and the stored
height map, modelled as a total function on integer indices; the source
only ever reads it through the bounds-guarded lookups below. -/
structure WorldH where
  worldSize : ℕ
  heightMap : ℤ → ℤ → ℚ

/-- Model of World.getHeightAt: translate world coordinates to grid
indices with floor(coord + worldSize/2); inside the grid return the
stored sample, otherwise the fallback 0. -/
def getHeightAt (w : WorldH) (x z : ℚ) : ℚ :=
  let ix : ℤ := ⌊x + (w.worldSize : ℚ) / 2⌋
  let iz : ℤ := ⌊z + (w.worldSize : ℚ) / 2⌋
  if 0 ≤ ix ∧ ix < (w.worldSize : ℤ) ∧ 0 ≤ iz ∧ iz < (w.worldSize : ℤ) then
    w.heightMap ix iz
  else 0

/-- Model of World.getInterpolatedHeightAt: bilinear interpolation of the
four surrounding samples using the fractional offsets, with a fallback to
getHeightAt when the corner test (indices below worldSize − 1) fails. -/
def getInterpolatedHeightAt (w : WorldH) (x z : ℚ) : ℚ :=
  let ix : ℤ := ⌊x + (w.worldSize : ℚ) / 2⌋
  let iz : ℤ := ⌊z + (w.worldSize : ℚ) / 2⌋
  if 0 ≤ ix ∧ ix < (w.worldSize : ℤ) - 1 ∧ 0 ≤ iz ∧ iz < (w.worldSize : ℤ) - 1 then
    let fx : ℚ := x + (w.worldSize : ℚ) / 2 - ix
    let fz : ℚ := z + (w.worldSize : ℚ) / 2 - iz
    let h00 := w.heightMap ix iz
    let h10 := w.heightMap (ix + 1) iz
    let h01 := w.heightMap ix (iz + 1)
    let h11 := w.heightMap (ix + 1) (iz + 1)
    let h0 := h00 * (1 - fx) + h10 * fx
    let h1 := h01 * (1 - fx) + h11 * fx
    h0 * (1 - fz) + h1 * fz
  else getHeightAt w x z

/-- Village radius from the World constructor. -/
def villageRadius : ℚ := 30

/-- Sum of the three noise octaves of World.generateTerrain: frequency
starts at 0.02 and doubles, amplitude starts at 6 and halves; noise2 is
the external simplex-noise function. -/
def octaveHeight (noise2 : ℚ → ℚ → ℚ) (x z : ℚ) : ℚ :=
  noise2 (x * (1 / 50)) (z * (1 / 50)) * 6
    + noise2 (x * (1 / 25)) (z * (1 / 25)) * 3
    + noise2 (x * (2 / 25)) (z * (2 / 25)) * (3 / 2)

/-- Specification of the square-root parameter sq, which models the
Math.sqrt inside THREE.Vector2.distanceTo applied to the squared
distance: it must order against the two thresholds the generator uses
(villageRadius = 30 and villageRadius + 20 = 50) exactly as the real
square root does. -/
def SqSpec (sq : ℚ → ℚ) : Prop :=
  ∀ q : ℚ, 0 ≤ q → ((sq q < 30 ↔ q < 900) ∧ (sq q < 50 ↔ q < 2500))

/-- Height-map cell value of World.generateTerrain at world coordinates
(x, z): the octave sum, forced to 0 strictly inside the village radius
and scaled by (distance − radius)/20 in the 20-unit transition band.
The village center is (0, 0), so the distance is sq (x² + z²). -/
def cellHeight (noise2 : ℚ → ℚ → ℚ) (sq : ℚ → ℚ) (x z : ℚ) : ℚ :=
  let distanceToVillage : ℚ := sq ((x - 0) ^ 2 + (z - 0) ^ 2)
  let h := octaveHeight noise2 x z
  if distanceToVillage < villageRadius then 0
  else if distanceToVillage < villageRadius + 20 then
    h * ((distanceToVillage - villageRadius) / 20)
  else h

/-- World construction (the height-map part of generateTerrain): grid
size 200, cell (i, j) holding the blended height at world coordinates
(i − 100, j − 100). -/
def mkWorld (noise2 : ℚ → ℚ → ℚ) (sq : ℚ → ℚ) : WorldH :=
  { worldSize := 200
    heightMap := fun i j => cellHeight noise2 sq ((i : ℚ) - 100) ((j : ℚ) - 100) }

/-- Seeded construction: the constructor derives the noise function from
the seed string alone (seedrandom feeding SimplexNoise); noiseOf models
that derivation, sq the square root of the platform. -/
def mkWorldSeeded (noiseOf : String → ℚ → ℚ → ℚ) (sq : ℚ → ℚ) (seed : String) : WorldH :=
  mkWorld (noiseOf seed) sq

/-! ## Building registry (src/types.ts and World.isInsideBuilding) -/

/-- Building footprint as registered by World.generateVillage, following
the Building interface of src/types.ts (the visual group is omitted). -/
structure Building where
  position : Vec3
  width : ℚ
  depth : ℚ
  height : ℚ
  entranceSide : ℕ
  deriving DecidableEq, Repr

/-- Model of World.isInsideBuilding: scan the registered buildings and
report whether the point lies in the axis-aligned box centered at the
footprint position, extending half the width and depth horizontally and
from the base up by the height. -/
def isInsideBuilding (buildings : List Building) (p : Vec3) : Bool :=
  buildings.any fun b =>
    decide (b.position.x - b.width / 2 ≤ p.x ∧ p.x ≤ b.position.x + b.width / 2 ∧
      b.position.z - b.depth / 2 ≤ p.z ∧ p.z ≤ b.position.z + b.depth / 2 ∧
      b.position.y ≤ p.y ∧ p.y ≤ b.position.y + b.height)

/-! ## Player locomotion (src/components/Player.js) -/

/-- Player constants from the Player constructor. -/
def pHeight : ℚ := 8 / 5

/-- Player collision radius. -/
def pRadius : ℚ := 1 / 2

/-- Player movement speed. -/
def pSpeed : ℚ := 10

/-- Gravity constant. -/
def pGravity : ℚ := 30

/-- Jump impulse (this.jumpHeight). -/
def pJumpHeight : ℚ := 10

/-- Mutable player state touched by Player.update: the camera-rig
position, the velocity vector and the canJump flag. -/
structure PState where
  pos : Vec3
  vel : Vec3
  canJump : Bool
  deriving DecidableEq, Repr

/-- Input booleans of the tick (moveForward etc. of Player). -/
structure Inp where
  moveForward : Bool
  moveBackward : Bool
  moveLeft : Bool
  moveRight : Bool
  deriving DecidableEq, Repr

/-- Ray oracle modelling THREE.Raycaster.intersectObjects over the
collidable set of the active scene: given a ray origin and direction it
returns the distance of the nearest hit, or none when the ray hits
nothing.  The direction argument is passed unnormalized; the oracle is
abstract, and every theorem that uses it either instantiates it
concretely or hypothesizes that it reports no hits. -/
def RayOracle : Type := Vec3 → Vec3 → Option ℚ

/-- Model of Player.jump. -/
def jump (st : PState) : PState :=
  if st.canJump then { st with vel := { st.vel with y := pJumpHeight }, canJump := false }
  else st

/-- Model of THREE.Vector3.normalize on the direction vector built from
the input booleans, whose components lie in {−1, 0, 1}: the zero vector
and the axis vectors are unchanged, and a diagonal is scaled by the
parameter s, which stands for the irrational 1/sqrt 2 the library
computes. -/
def normDir (dx dz s : ℚ) : ℚ × ℚ :=
  if dx = 0 ∧ dz = 0 then (0, 0)
  else if dx = 0 ∨ dz = 0 then (dx, dz)
  else (dx * s, dz * s)

/-- Model of Player.checkVerticalCollisions: an upward ray from the
passed center; a hit closer than height + 0.5 pushes the player down by
0.1 and cancels positive vertical velocity. -/
def checkVerticalCollisions (ray : RayOracle) (center : Vec3) (st : PState) : PState :=
  match ray center ⟨0, 1, 0⟩ with
  | some d =>
    if d < pHeight + 1 / 2 then
      { st with
        pos := { st.pos with y := st.pos.y - 1 / 10 }
        vel := if st.vel.y > 0 then { st.vel with y := 0 } else st.vel }
    else st
  | none => st

/-- Eight horizontal probe directions of the Player constructor. -/
def collisionDirections : List Vec3 :=
  [⟨1, 0, 0⟩, ⟨-1, 0, 0⟩, ⟨0, 0, 1⟩, ⟨0, 0, -1⟩,
   ⟨7 / 10, 0, 7 / 10⟩, ⟨-7 / 10, 0, 7 / 10⟩, ⟨7 / 10, 0, -7 / 10⟩, ⟨-7 / 10, 0, -7 / 10⟩]

/-- Push-back applied for one probe direction in
Player.checkAllDirectionCollisions: a hit closer than the radius moves
the position along the direction by −(radius − distance). -/
def pushFromDir (ray : RayOracle) (center : Vec3) (st : PState) (dir : Vec3) : PState :=
  match ray center dir with
  | some d =>
    if d < pRadius then
      { st with pos := vadd st.pos (vscale (-(pRadius - d)) dir) }
    else st
  | none => st

/-- Model of Player.checkAllDirectionCollisions: rays start at the
player center (position lowered by half the height, cloned once, so
push-backs do not move the ray origins); the upward check runs first,
then the eight horizontal probes, then a downward check that lifts the
player onto a floor hit closer than half the height, zeroing vertical
velocity and re-enabling jumping. -/
def checkAllDirectionCollisions (ray : RayOracle) (st0 : PState) : PState :=
  let center : Vec3 := ⟨st0.pos.x, st0.pos.y - pHeight / 2, st0.pos.z⟩
  let st1 := checkVerticalCollisions ray center st0
  let st2 := collisionDirections.foldl (pushFromDir ray center) st1
  match ray center ⟨0, -1, 0⟩ with
  | some d =>
    if d < pHeight / 2 then
      { st2 with
        pos := { st2.pos with y := st2.pos.y + (pHeight / 2 - d) }
        vel := { st2.vel with y := 0 }
        canJump := true }
    else st2
  | none => st2

/-- Model of Player.checkObjectCollisions: cast from the player center
(old position lowered by half the height) toward the candidate position
and report a hit strictly closer than the collision radius. -/
def checkObjectCollisions (ray : RayOracle) (oldP newP : Vec3) : Bool :=
  let origin : Vec3 := ⟨oldP.x, oldP.y - pHeight / 2, oldP.z⟩
  let dir : Vec3 := ⟨newP.x - oldP.x, newP.y - oldP.y, newP.z - oldP.z⟩
  match ray origin dir with
  | some d => decide (d < pRadius)
  | none => false

/-- Committed-move stage of the Exterior branch of Player.update, given
the already-computed terrain height at the old position, the height of
the player above it, and the horizontal velocity components: translate
by moveRight and moveForward along the camera vectors, veto the move
when the interpolated height climbs by more than 1.0 while grounded
(position.copy of the old position, which the stage leaves untouched),
otherwise apply the vertical velocity and snap up onto the terrain when
the result would sink below it. -/
def moveAndResolve (H : ℚ → ℚ → ℚ) (fw rt : ℚ × ℚ)
    (terrainHeight playerHeightAboveTerrain vx vz delta : ℚ) (st : PState) : PState :=
  let p1 : Vec3 :=
    ⟨st.pos.x + vx * delta * rt.1 + vz * delta * fw.1, st.pos.y,
     st.pos.z + vx * delta * rt.2 + vz * delta * fw.2⟩
  let newTerrainHeight := H p1.x p1.z
  let heightDifference := newTerrainHeight - terrainHeight
  if heightDifference > 1 ∧ playerHeightAboveTerrain ≤ pHeight then st
  else
    let p2 : Vec3 := { p1 with y := p1.y + st.vel.y * delta }
    let finalTerrainHeight := H p2.x p2.z
    if p2.y < finalTerrainHeight + pHeight then
      { st with
        pos := { p2 with y := finalTerrainHeight + pHeight }
        vel := { st.vel with y := 0 }
        canJump := true }
    else { st with pos := p2 }

/-- Model of the Exterior branch of Player.update.  Parameters: H is the
world interpolated-height query, ray the collidable-set oracle, fw and
rt the horizontal unit vectors along which PointerLockControls
moveForward and moveRight translate the rig, s the diagonal
normalization factor, inp the input booleans, delta the tick length.
The body follows the source line by line: all-direction collision
resolution, the grounded/airborne vertical step, the velocity update,
the object-collision gate on an axis-aligned candidate, and the
committed-move stage above. -/
def updateExterior (H : ℚ → ℚ → ℚ) (ray : RayOracle) (fw rt : ℚ × ℚ) (s : ℚ)
    (inp : Inp) (delta : ℚ) (start : PState) : PState :=
  let st := checkAllDirectionCollisions ray start
  let terrainHeight := H st.pos.x st.pos.z
  let playerHeightAboveTerrain := st.pos.y - terrainHeight
  let st :=
    if playerHeightAboveTerrain > pHeight then
      { st with vel := { st.vel with y := st.vel.y - pGravity * delta }, canJump := false }
    else
      { st with
        vel := if st.vel.y < 0 then { st.vel with y := 0 } else st.vel
        pos := { st.pos with y := terrainHeight + pHeight }
        canJump := true }
  let dz : ℚ := (if inp.moveForward then 1 else 0) - (if inp.moveBackward then 1 else 0)
  let dx : ℚ := (if inp.moveRight then 1 else 0) - (if inp.moveLeft then 1 else 0)
  let nd := normDir dx dz s
  let vz : ℚ := if inp.moveForward || inp.moveBackward then nd.2 * pSpeed else 0
  let vx : ℚ := if inp.moveRight || inp.moveLeft then nd.1 * pSpeed else 0
  let st := { st with vel := ⟨vx, st.vel.y, vz⟩ }
  let oldPosition := st.pos
  let newPosition : Vec3 := ⟨oldPosition.x + vx * delta, oldPosition.y, oldPosition.z + vz * delta⟩
  if checkObjectCollisions ray oldPosition newPosition then st
  else moveAndResolve H fw rt terrainHeight playerHeightAboveTerrain vx vz delta st

/-- Terrain query that drops by one half beyond z = 1: walkable downhill. -/
def Hdown : ℚ → ℚ → ℚ := fun _ z => if 1 ≤ z then -(1 / 2) else 0

/-- Terrain query that rises by one half beyond z = 1: gentle uphill. -/
def Hup : ℚ → ℚ → ℚ := fun _ z => if 1 ≤ z then 1 / 2 else 0

/-- Terrain query with a two-unit step beyond z = 1: a steep wall. -/
def Hwall : ℚ → ℚ → ℚ := fun _ z => if 1 ≤ z then 2 else 0

/-- Ray oracle of an obstacle-free surrounding. -/
def noHits : RayOracle := fun _ _ => none

/-! ## Scene transition: enterBuilding / exitBuilding (Player.js) -/

/-- Player fields that the building enter/exit transitions read and
write.  The active scene and the saved exterior objects are abstracted
to lists of opaque object identifiers; interiorGroup records whether
this.interiorGroup is non-null. -/
structure TransState where
  position : Vec3
  velocity : Vec3
  insideBuilding : Option Building
  lastOutsidePosition : Option Vec3
  interiorGroup : Bool
  outsideSceneObjects : Option (List ℕ)
  scene : List ℕ
  deriving DecidableEq, Repr

/-- Model of Player.enterBuilding: save the current position as the
return position, mark the building as entered, stash the exterior scene
contents and replace them with the freshly built interior content
(passed as a parameter, since the interior geometry is cosmetic), create
the interior group, and spawn the player at (0, height, 5) with zero
velocity. -/
def enterBuilding (b : Building) (interiorContent : List ℕ) (st : TransState) : TransState :=
  { st with
    lastOutsidePosition := some st.position
    insideBuilding := some b
    outsideSceneObjects := some st.scene
    scene := interiorContent
    interiorGroup := true
    position := ⟨0, pHeight, 5⟩
    velocity := ⟨0, 0, 0⟩ }

/-- Displacement applied on exit for each entrance side, from the switch
in Player.exitBuilding: front adds 2 to z, right adds 2 to x, back
subtracts 2 from z, left subtracts 2 from x. -/
def exitShift (doorSide : ℕ) (p : Vec3) : Vec3 :=
  match doorSide with
  | 0 => { p with z := p.z + 2 }
  | 1 => { p with x := p.x + 2 }
  | 2 => { p with z := p.z - 2 }
  | 3 => { p with x := p.x - 2 }
  | _ => p

/-- Model of Player.exitBuilding: a no-op unless both the inside flag
and the stored return position exist; otherwise tear down the interior
group, restore the saved exterior scene, teleport the player to the
return position shifted by 2 units along the entrance side of the
entered building, and clear the building reference.  After an enter the
scene holds exactly the interior content, so removing the interior group
and lights and re-adding the saved objects is modelled as restoring the
saved list (or the emptied scene when nothing was saved). -/
def exitBuilding (st : TransState) : TransState :=
  match st.insideBuilding, st.lastOutsidePosition with
  | some b, some ret =>
    { st with
      interiorGroup := false
      scene := st.outsideSceneObjects.getD []
      outsideSceneObjects := none
      position := exitShift b.entranceSide ret
      insideBuilding := none }
  | some _, none => st
  | none, _ => st

/-- Transition operations a play session can perform. -/
inductive TOp where
  | enter (b : Building) (interiorContent : List ℕ)
  | exit
  deriving DecidableEq, Repr

/-- Apply one transition operation. -/
def applyOp (st : TransState) (op : TOp) : TransState :=
  match op with
  | .enter b interiorContent => enterBuilding b interiorContent st
  | .exit => exitBuilding st

/-- Run a sequence of transition operations. -/
def runOps (ops : List TOp) (st : TransState) : TransState :=
  ops.foldl applyOp st

/-- Initial exterior state of a session: no building entered, no interior
group, no saved return position, and some exterior scene content. -/
def initState (p : Vec3) (sceneContent : List ℕ) : TransState :=
  { position := p
    velocity := ⟨0, 0, 0⟩
    insideBuilding := none
    lastOutsidePosition := none
    interiorGroup := false
    outsideSceneObjects := none
    scene := sceneContent }

/-- Entrance-side outward normal as the specification states it:
0 is +Z, 1 is +X, 2 is −Z, 3 is −X. -/
def entranceNormal (side : ℕ) : Vec3 :=
  match side with
  | 0 => ⟨0, 0, 1⟩
  | 1 => ⟨1, 0, 0⟩
  | 2 => ⟨0, 0, -1⟩
  | 3 => ⟨-1, 0, 0⟩
  | _ => ⟨0, 0, 0⟩

/-- Mode of the avatar, determined in the code by the insideBuilding
reference that Player.update branches on. -/
inductive Mode where
  | exterior
  | interior
  deriving DecidableEq, Repr

/-- Mode read-out of a transition state. -/
def modeOf (st : TransState) : Mode :=
  if st.insideBuilding.isSome then Mode.interior else Mode.exterior

/-- Session invariant that actually holds: the interior group exists
exactly when a building is entered, and an entered building implies a
stored return position.  The stored return position itself is not
cleared on exit. -/
def SessionInv (st : TransState) : Prop :=
  st.interiorGroup = st.insideBuilding.isSome ∧
    (st.insideBuilding.isSome → st.lastOutsidePosition.isSome)

/-- Spec-side predicate: one of the four surrounding grid corners is out
of bounds, i.e. the floored index lies outside [0, worldSize − 2]. -/
def cornerOutOfBounds (w : WorldH) (x z : ℚ) : Prop :=
  ⌊x + (w.worldSize : ℚ) / 2⌋ < 0 ∨ (w.worldSize : ℤ) - 2 < ⌊x + (w.worldSize : ℚ) / 2⌋
    ∨ ⌊z + (w.worldSize : ℚ) / 2⌋ < 0 ∨ (w.worldSize : ℤ) - 2 < ⌊z + (w.worldSize : ℚ) / 2⌋

instance (w : WorldH) (x z : ℚ) : Decidable (cornerOutOfBounds w x z) := by
  unfold cornerOutOfBounds; infer_instance

/-- Spec-side bilinear blend: the four corner samples weighted by the
fractional offsets. -/
def bilinearSpec (w : WorldH) (x z : ℚ) : ℚ :=
  let ix : ℤ := ⌊x + (w.worldSize : ℚ) / 2⌋
  let iz : ℤ := ⌊z + (w.worldSize : ℚ) / 2⌋
  let fx : ℚ := x + (w.worldSize : ℚ) / 2 - ix
  let fz : ℚ := z + (w.worldSize : ℚ) / 2 - iz
  w.heightMap ix iz * (1 - fx) * (1 - fz) + w.heightMap (ix + 1) iz * fx * (1 - fz)
    + w.heightMap ix (iz + 1) * (1 - fx) * fz + w.heightMap (ix + 1) (iz + 1) * fx * fz

/-- Concrete square-root stand-in used by counterexamples and witnesses:
it satisfies SqSpec, agreeing with the real square root on every
comparison the terrain generator makes. -/
def sq0 : ℚ → ℚ := fun q => if q < 900 then 0 else if q < 2500 then 31 else 100

/-- Concrete building used in closed instances. -/
def bBakery : Building :=
  { position := ⟨10, 0, 10⟩, width := 4, depth := 4, height := 3, entranceSide := 0 }

/-- Concrete building used in the session counterexample. -/
def bSmithy : Building :=
  { position := ⟨-12, 0, 5⟩, width := 5, depth := 6, height := 4, entranceSide := 1 }

/-! ## Helper lemmas -/

/-- Inside the grid, the constructed world answers a height query with
the cell value at the floored world coordinates. -/
theorem getHeightAt_mkWorld (noise2 : ℚ → ℚ → ℚ) (sq : ℚ → ℚ) (x z : ℚ)
    (hx1 : -100 ≤ ⌊x⌋) (hx2 : ⌊x⌋ < 100) (hz1 : -100 ≤ ⌊z⌋) (hz2 : ⌊z⌋ < 100) :
    getHeightAt (mkWorld noise2 sq) x z = cellHeight noise2 sq ((⌊x⌋ : ℚ)) ((⌊z⌋ : ℚ)) := by
  unfold getHeightAt mkWorld
  dsimp only
  have h200 : (((200 : ℕ) : ℚ)) / 2 = ((100 : ℤ) : ℚ) := by norm_num
  rw [h200, Int.floor_add_int x 100, Int.floor_add_int z 100]
  rw [if_pos (by omega : 0 ≤ ⌊x⌋ + 100 ∧ ⌊x⌋ + 100 < ((200 : ℕ) : ℤ) ∧
    0 ≤ ⌊z⌋ + 100 ∧ ⌊z⌋ + 100 < ((200 : ℕ) : ℤ))]
  congr 1 <;> push_cast <;> ring

/-- Verification that the concrete stand-in sq0 meets SqSpec. -/
theorem sq0_spec : SqSpec sq0 := by
  intro q hq
  unfold sq0
  split_ifs with h1 h2 <;> norm_num
  · exact ⟨h1, by linarith⟩
  · exact ⟨by linarith, h2⟩
  · exact ⟨by linarith, by linarith⟩

/-- With an oracle that reports no hits, the all-direction collision
resolution leaves the player state unchanged. -/
theorem checkAllDirectionCollisions_noHit (ray : RayOracle) (hray : ∀ o d, ray o d = none)
    (st : PState) : checkAllDirectionCollisions ray st = st := by
  unfold checkAllDirectionCollisions checkVerticalCollisions collisionDirections pushFromDir
  simp [hray, List.foldl]

/-- With an oracle that reports no hits, the object-collision gate never
blocks a move. -/
theorem checkObjectCollisions_noHit (ray : RayOracle) (hray : ∀ o d, ray o d = none)
    (oldP newP : Vec3) : checkObjectCollisions ray oldP newP = false := by
  unfold checkObjectCollisions
  simp [hray]

/-- Height of the player after the committed-move stage, starting
grounded with no vertical velocity: the maximum of the terrain heights
at the old and the final position, plus the player height. -/
theorem moveAndResolve_grounded (H : ℚ → ℚ → ℚ) (fw rt : ℚ × ℚ)
    (h0 phat vx vz delta : ℚ) (st : PState)
    (hpos : st.pos.y = h0 + pHeight) (hvy : st.vel.y = 0)
    (hterr : H st.pos.x st.pos.z = h0) :
    (moveAndResolve H fw rt h0 phat vx vz delta st).pos.y =
      max h0
        (H (moveAndResolve H fw rt h0 phat vx vz delta st).pos.x
          (moveAndResolve H fw rt h0 phat vx vz delta st).pos.z) + pHeight := by
  unfold moveAndResolve
  dsimp only
  simp only [hvy, zero_mul, add_zero]
  split
  · rw [hterr, max_self, hpos]
  · split
    · next h2 =>
      rw [max_eq_right (by linarith [hpos ▸ h2])]
    · next h2 =>
      rw [max_eq_left (by linarith [hpos ▸ h2]), hpos]

/-- Preservation of the session invariant by a single transition. -/
theorem applyOp_sessionInv (st : TransState) (op : TOp) (h : SessionInv st) :
    SessionInv (applyOp st op) := by
  cases op with
  | enter b interiorContent => simp [applyOp, enterBuilding, SessionInv]
  | exit =>
    unfold applyOp exitBuilding
    rcases h1 : st.insideBuilding with _ | b <;> rcases h2 : st.lastOutsidePosition with _ | r <;>
      simp_all [SessionInv]

/-- Preservation of the session invariant by any transition sequence. -/
theorem runOps_sessionInv (ops : List TOp) (st : TransState) (h : SessionInv st) :
    SessionInv (runOps ops st) := by
  induction ops generalizing st with
  | nil => exact h
  | cons op ops ih => exact ih (applyOp st op) (applyOp_sessionInv st op h)

/-! ## Claim C1: flatness inside the village radius -/

/-- Claim C1, amended.  The original claim fails (see the
counterexample): a query point strictly inside the village radius can
floor to a grid cell in the transition annulus, whose stored height is a
nonzero noise fraction.  What holds is: whenever the grid cell the
lookup lands on, at world coordinates (floor x, floor z), is itself
strictly inside the village radius, getHeightAt returns exactly 0, for
every noise function and every square root satisfying SqSpec. -/
theorem flatInsideVillage (noise2 : ℚ → ℚ → ℚ) (sq : ℚ → ℚ) (hsq : SqSpec sq)
    (x z : ℚ) (hin : ((⌊x⌋ : ℚ)) ^ 2 + ((⌊z⌋ : ℚ)) ^ 2 < 900) :
    getHeightAt (mkWorld noise2 sq) x z = 0 := by
  have hx2 : ((⌊x⌋ : ℚ)) ^ 2 < 30 ^ 2 := by nlinarith [sq_nonneg ((⌊z⌋ : ℚ))]
  have hz2 : ((⌊z⌋ : ℚ)) ^ 2 < 30 ^ 2 := by nlinarith [sq_nonneg ((⌊x⌋ : ℚ))]
  have hx30 := abs_lt.mp (abs_lt_of_sq_lt_sq hx2 (by norm_num))
  have hz30 := abs_lt.mp (abs_lt_of_sq_lt_sq hz2 (by norm_num))
  have hxl : (-100 : ℤ) ≤ ⌊x⌋ := by
    have : (-30 : ℤ) < ⌊x⌋ := by exact_mod_cast hx30.1
    omega
  have hxu : ⌊x⌋ < (100 : ℤ) := by
    have : ⌊x⌋ < (30 : ℤ) := by exact_mod_cast hx30.2
    omega
  have hzl : (-100 : ℤ) ≤ ⌊z⌋ := by
    have : (-30 : ℤ) < ⌊z⌋ := by exact_mod_cast hz30.1
    omega
  have hzu : ⌊z⌋ < (100 : ℤ) := by
    have : ⌊z⌋ < (30 : ℤ) := by exact_mod_cast hz30.2
    omega
  rw [getHeightAt_mkWorld noise2 sq x z hxl hxu hzl hzu]
  unfold cellHeight
  dsimp only
  have hq : (0 : ℚ) ≤ ((⌊x⌋ : ℚ) - 0) ^ 2 + ((⌊z⌋ : ℚ) - 0) ^ 2 := by positivity
  have hlt : ((⌊x⌋ : ℚ) - 0) ^ 2 + ((⌊z⌋ : ℚ) - 0) ^ 2 < 900 := by
    ring_nf; ring_nf at hin; linarith
  have hb := ((hsq _ hq).1).mpr hlt
  rw [if_pos (by unfold villageRadius; exact hb)]

/-- Claim C1, counterexample.  The point (−29.9, −1) has squared
distance 895.01 < 900 to the village center, yet its lookup floors to
the cell (−30, −1) at squared distance 901, inside the transition
annulus, where the stored height is the octave sum times a positive
transition factor: with constant noise 1 and the SqSpec-satisfying sq0
the result is 21/40, not 0. -/
theorem flatnessFailsAtAnnulusCell :
    SqSpec sq0 ∧ ((-299 / 10 : ℚ)) ^ 2 + ((-1 : ℚ)) ^ 2 < 900 ∧
      getHeightAt (mkWorld (fun _ _ => 1) sq0) (-299 / 10) (-1) ≠ 0 := by
  refine ⟨sq0_spec, by norm_num, ?_⟩
  have hfl : (⌊(-299 / 10 : ℚ)⌋ : ℤ) = -30 := by norm_num [Int.floor_eq_iff]
  have hfz : (⌊(-1 : ℚ)⌋ : ℤ) = -1 := by norm_num
  rw [getHeightAt_mkWorld (fun _ _ => 1) sq0 _ _ (by omega) (by omega) (by omega) (by omega)]
  rw [hfl, hfz]
  unfold cellHeight octaveHeight villageRadius sq0
  norm_num

/-- Claim C1, witness for the amended theorem at the in-village point
(1/2, 0). -/
theorem flatInsideVillage_witness :
    SqSpec sq0 ∧ ((⌊(1 / 2 : ℚ)⌋ : ℚ)) ^ 2 + ((⌊(0 : ℚ)⌋ : ℚ)) ^ 2 < 900 ∧
      getHeightAt (mkWorld (fun _ _ => 1) sq0) (1 / 2) 0 = 0 :=
  ⟨sq0_spec, by norm_num, flatInsideVillage (fun _ _ => 1) sq0 sq0_spec (1 / 2) 0 (by norm_num)⟩

/-! ## Claim C2: grounded invariant of the Exterior tick -/

/-- Claim C2, amended.  The original claim fails (see the
counterexample): walking downhill leaves the player at the old snapped
height, above the terrain at the new position.  What holds, for a tick
with no collision-ray hits, a grounded start and no residual upward
velocity, is that the final height is the larger of the interpolated
terrain heights at the start and at the final position, plus the player
height 1.6; the originally claimed equality with the final terrain
height alone holds exactly when the terrain does not drop along the
move. -/
theorem groundedTickHeight (H : ℚ → ℚ → ℚ) (ray : RayOracle) (fw rt : ℚ × ℚ) (s : ℚ)
    (inp : Inp) (delta : ℚ) (st : PState)
    (hray : ∀ o d, ray o d = none)
    (hgr : st.pos.y - H st.pos.x st.pos.z ≤ pHeight)
    (hvy : st.vel.y ≤ 0) :
    (updateExterior H ray fw rt s inp delta st).pos.y =
      max (H st.pos.x st.pos.z)
        (H (updateExterior H ray fw rt s inp delta st).pos.x
          (updateExterior H ray fw rt s inp delta st).pos.z) + pHeight := by
  unfold updateExterior
  rw [checkAllDirectionCollisions_noHit ray hray]
  dsimp only
  rw [checkObjectCollisions_noHit ray hray]
  rw [if_neg (not_lt.mpr hgr)]
  simp only [Bool.false_eq_true, if_false]
  rcases eq_or_lt_of_le hvy with heq | hlt
  · simp only [heq, lt_self_iff_false, if_false]
    exact moveAndResolve_grounded H fw rt _ _ _ _ delta _ rfl rfl rfl
  · rw [if_pos hlt]
    exact moveAndResolve_grounded H fw rt _ _ _ _ delta _ rfl rfl rfl

/-- Claim C2, counterexample.  A grounded, zero-velocity player walking
forward for one tick of 0.1 s over terrain that drops by one half ends
at height 8/5, while the interpolated terrain height at the final
position plus the player height is 11/10: the claimed equality fails on
a downhill step even though no jump was issued. -/
theorem groundedClaimFailsDownhill :
    ((⟨⟨0, 8 / 5, 0⟩, ⟨0, 0, 0⟩, true⟩ : PState).pos.y - Hdown 0 0 ≤ pHeight)
      ∧ (⟨⟨0, 8 / 5, 0⟩, ⟨0, 0, 0⟩, true⟩ : PState).vel.y = 0
      ∧ (updateExterior Hdown noHits (0, 1) (1, 0) 1 ⟨true, false, false, false⟩ (1 / 10)
            ⟨⟨0, 8 / 5, 0⟩, ⟨0, 0, 0⟩, true⟩).pos.y ≠
          Hdown
            (updateExterior Hdown noHits (0, 1) (1, 0) 1 ⟨true, false, false, false⟩ (1 / 10)
              ⟨⟨0, 8 / 5, 0⟩, ⟨0, 0, 0⟩, true⟩).pos.x
            (updateExterior Hdown noHits (0, 1) (1, 0) 1 ⟨true, false, false, false⟩ (1 / 10)
              ⟨⟨0, 8 / 5, 0⟩, ⟨0, 0, 0⟩, true⟩).pos.z + pHeight := by
  refine ⟨by norm_num [Hdown, pHeight], rfl, ?_⟩
  norm_num [updateExterior, moveAndResolve, checkAllDirectionCollisions, checkVerticalCollisions,
    pushFromDir, collisionDirections, checkObjectCollisions, normDir, noHits, Hdown,
    pHeight, pSpeed, pGravity, pRadius]

/-- Claim C2, witness for the amended theorem: a forward tick up a
gentle half-unit rise snaps the player to the higher terrain. -/
theorem groundedTickHeight_witness :
    (∀ o d, noHits o d = none)
      ∧ ((⟨⟨0, 8 / 5, 0⟩, ⟨0, 0, 0⟩, true⟩ : PState).pos.y - Hup 0 0 ≤ pHeight)
      ∧ ((⟨⟨0, 8 / 5, 0⟩, ⟨0, 0, 0⟩, true⟩ : PState).vel.y ≤ 0)
      ∧ (updateExterior Hup noHits (0, 1) (1, 0) 1 ⟨true, false, false, false⟩ (1 / 10)
            ⟨⟨0, 8 / 5, 0⟩, ⟨0, 0, 0⟩, true⟩).pos.y =
          max (Hup 0 0)
            (Hup
              (updateExterior Hup noHits (0, 1) (1, 0) 1 ⟨true, false, false, false⟩ (1 / 10)
                ⟨⟨0, 8 / 5, 0⟩, ⟨0, 0, 0⟩, true⟩).pos.x
              (updateExterior Hup noHits (0, 1) (1, 0) 1 ⟨true, false, false, false⟩ (1 / 10)
                ⟨⟨0, 8 / 5, 0⟩, ⟨0, 0, 0⟩, true⟩).pos.z) + pHeight :=
  ⟨fun _ _ => rfl, by norm_num [Hup, pHeight], by norm_num,
    groundedTickHeight Hup noHits (0, 1) (1, 0) 1 ⟨true, false, false, false⟩ (1 / 10)
      ⟨⟨0, 8 / 5, 0⟩, ⟨0, 0, 0⟩, true⟩ (fun _ _ => rfl) (by norm_num [Hup, pHeight])
      (by norm_num)⟩

/-! ## Claim C3: slope veto on forward movement -/

/-- Claim C3, confirmed.  For a grounded Exterior tick with only the
forward input set and no collision-ray hits, if the interpolated terrain
height at the candidate position (the old position moved by
speed times delta along the camera forward vector) exceeds the height at
the old position by more than the slope threshold 1.0, the tick yields
zero net horizontal displacement: the final position is the old
position, with the height snapped to the old terrain height plus the
player height. -/
theorem slopeVetoStopsForward (H : ℚ → ℚ → ℚ) (ray : RayOracle) (fw rt : ℚ × ℚ)
    (s delta : ℚ) (st : PState)
    (hray : ∀ o d, ray o d = none)
    (hgr : st.pos.y - H st.pos.x st.pos.z ≤ pHeight)
    (hsteep : H (st.pos.x + pSpeed * delta * fw.1) (st.pos.z + pSpeed * delta * fw.2)
        - H st.pos.x st.pos.z > 1) :
    (updateExterior H ray fw rt s ⟨true, false, false, false⟩ delta st).pos.x = st.pos.x
      ∧ (updateExterior H ray fw rt s ⟨true, false, false, false⟩ delta st).pos.z = st.pos.z
      ∧ (updateExterior H ray fw rt s ⟨true, false, false, false⟩ delta st).pos.y
          = H st.pos.x st.pos.z + pHeight := by
  unfold updateExterior
  rw [checkAllDirectionCollisions_noHit ray hray]
  dsimp only
  rw [checkObjectCollisions_noHit ray hray]
  rw [if_neg (not_lt.mpr hgr)]
  simp only [Bool.false_eq_true, if_false]
  norm_num [normDir]
  unfold moveAndResolve
  dsimp only
  rw [if_pos ⟨by convert hsteep using 3 <;> ring, hgr⟩]
  exact ⟨rfl, rfl, rfl⟩

/-- Claim C3, witness: a forward tick into a two-unit step is vetoed and
the player stays in place. -/
theorem slopeVetoStopsForward_witness :
    (∀ o d, noHits o d = none)
      ∧ ((⟨⟨0, 8 / 5, 0⟩, ⟨0, 0, 0⟩, true⟩ : PState).pos.y - Hwall 0 0 ≤ pHeight)
      ∧ (Hwall (0 + pSpeed * (1 / 10) * 0) (0 + pSpeed * (1 / 10) * 1) - Hwall 0 0 > 1)
      ∧ ((updateExterior Hwall noHits (0, 1) (1, 0) 1 ⟨true, false, false, false⟩ (1 / 10)
            ⟨⟨0, 8 / 5, 0⟩, ⟨0, 0, 0⟩, true⟩).pos.x = 0
          ∧ (updateExterior Hwall noHits (0, 1) (1, 0) 1 ⟨true, false, false, false⟩ (1 / 10)
              ⟨⟨0, 8 / 5, 0⟩, ⟨0, 0, 0⟩, true⟩).pos.z = 0
          ∧ (updateExterior Hwall noHits (0, 1) (1, 0) 1 ⟨true, false, false, false⟩ (1 / 10)
              ⟨⟨0, 8 / 5, 0⟩, ⟨0, 0, 0⟩, true⟩).pos.y = Hwall 0 0 + pHeight) :=
  ⟨fun _ _ => rfl, by norm_num [Hwall, pHeight],
    by norm_num [Hwall, pSpeed],
    slopeVetoStopsForward Hwall noHits (0, 1) (1, 0) 1 (1 / 10)
      ⟨⟨0, 8 / 5, 0⟩, ⟨0, 0, 0⟩, true⟩ (fun _ _ => rfl) (by norm_num [Hwall, pHeight])
      (by norm_num [Hwall, pSpeed])⟩

/-! ## Claim C4: round-trip enter and exit -/

/-- Claim C4, confirmed.  Entering any building from any exterior
position P and immediately exiting restores the avatar position to P
shifted by the fixed clearance distance 2 along the entrance-side
normal of the building (0 is +Z, 1 is +X, 2 is −Z, 3 is −X), not to the
interior spawn point. -/
theorem roundTripExit (st : TransState) (b : Building) (interiorContent : List ℕ)
    (h : b.entranceSide < 4) :
    (exitBuilding (enterBuilding b interiorContent st)).position =
      vadd st.position (vscale 2 (entranceNormal b.entranceSide)) := by
  have h4 : b.entranceSide = 0 ∨ b.entranceSide = 1 ∨ b.entranceSide = 2 ∨ b.entranceSide = 3 := by
    omega
  rcases h4 with h0 | h0 | h0 | h0 <;>
    simp [enterBuilding, exitBuilding, exitShift, entranceNormal, vadd, vscale, h0] <;>
    ring

/-- Claim C4, witness: a concrete front-door building and start
position. -/
theorem roundTripExit_witness :
    bBakery.entranceSide < 4 ∧
      (exitBuilding (enterBuilding bBakery [] (initState ⟨3, 8 / 5, 7⟩ [1, 2]))).position =
        vadd (initState ⟨3, 8 / 5, 7⟩ [1, 2]).position
          (vscale 2 (entranceNormal bBakery.entranceSide)) :=
  ⟨by decide, roundTripExit (initState ⟨3, 8 / 5, 7⟩ [1, 2]) bBakery [] (by decide)⟩

/-! ## Claim C5: mode exclusivity and session state -/

/-- Claim C5, amended.  The original iff fails for the saved return
position (see the counterexample): exitBuilding never clears
lastOutsidePosition, so it survives into Exterior mode.  What holds
after any sequence of transitions from the initial exterior state is:
the mode is Interior exactly when the insideBuilding reference is set,
the interior group exists exactly when the insideBuilding reference is
set, and an insideBuilding reference implies a stored return
position. -/
theorem modeExclusivity (ops : List TOp) (p : Vec3) (sceneContent : List ℕ) :
    (modeOf (runOps ops (initState p sceneContent)) = Mode.interior
        ↔ (runOps ops (initState p sceneContent)).insideBuilding.isSome = true)
      ∧ (runOps ops (initState p sceneContent)).interiorGroup
          = (runOps ops (initState p sceneContent)).insideBuilding.isSome
      ∧ (!(runOps ops (initState p sceneContent)).insideBuilding.isSome
          || (runOps ops (initState p sceneContent)).lastOutsidePosition.isSome) = true := by
  have h0 : SessionInv (initState p sceneContent) := by simp [SessionInv, initState]
  obtain ⟨h1, h2⟩ := runOps_sessionInv ops (initState p sceneContent) h0
  refine ⟨?_, h1, ?_⟩
  · unfold modeOf
    rcases hb : (runOps ops (initState p sceneContent)).insideBuilding with _ | b <;> simp [hb]
  · rcases hb : (runOps ops (initState p sceneContent)).insideBuilding with _ | b <;>
      simp_all

/-- Claim C5, counterexample.  After entering and exiting one building
the avatar is back in Exterior mode with no insideBuilding reference,
yet the saved return position is still present, refuting the claimed
iff between the full session state and the Interior mode. -/
theorem returnPositionSurvivesExit :
    (runOps [TOp.enter bSmithy [7], TOp.exit] (initState ⟨0, 8 / 5, 0⟩ [3])).insideBuilding = none
      ∧ (runOps [TOp.enter bSmithy [7], TOp.exit] (initState ⟨0, 8 / 5, 0⟩ [3])).lastOutsidePosition
          ≠ none := by
  constructor <;>
    simp [runOps, applyOp, enterBuilding, exitBuilding, initState, bSmithy, List.foldl]

/-! ## Claim C6: interpolated height query -/

/-- Claim C6, confirmed.  For every point, getInterpolatedHeightAt
returns the fallback getHeightAt when one of the four surrounding
corners is out of bounds (the floored index outside [0, worldSize − 2],
which includes the top and right grid edge), and otherwise the bilinear
blend of the four corner samples weighted by the fractional offsets. -/
theorem interpolatedHeightAt_spec (w : WorldH) (x z : ℚ) :
    getInterpolatedHeightAt w x z =
      if cornerOutOfBounds w x z then getHeightAt w x z else bilinearSpec w x z := by
  unfold getInterpolatedHeightAt cornerOutOfBounds bilinearSpec
  dsimp only
  set ix : ℤ := ⌊x + (w.worldSize : ℚ) / 2⌋ with hix
  set iz : ℤ := ⌊z + (w.worldSize : ℚ) / 2⌋ with hiz
  by_cases h : 0 ≤ ix ∧ ix < (w.worldSize : ℤ) - 1 ∧ 0 ≤ iz ∧ iz < (w.worldSize : ℤ) - 1
  · rw [if_pos h, if_neg (by omega)]
    ring
  · rw [if_neg h, if_pos (by omega)]

/-! ## Claim C7: nearest-cell height query with fallback -/

/-- Claim C7, confirmed.  getHeightAt floors the translated coordinates
to grid indices; when either index lies outside [0, worldSize) it
returns the fallback 0 (the model is total, so no error is raised), and
otherwise the stored height-map sample at those indices. -/
theorem heightAt_spec (w : WorldH) (x z : ℚ) :
    getHeightAt w x z =
      if ⌊x + (w.worldSize : ℚ) / 2⌋ < 0 ∨ (w.worldSize : ℤ) ≤ ⌊x + (w.worldSize : ℚ) / 2⌋
          ∨ ⌊z + (w.worldSize : ℚ) / 2⌋ < 0 ∨ (w.worldSize : ℤ) ≤ ⌊z + (w.worldSize : ℚ) / 2⌋
        then 0
        else w.heightMap ⌊x + (w.worldSize : ℚ) / 2⌋ ⌊z + (w.worldSize : ℚ) / 2⌋ := by
  unfold getHeightAt
  dsimp only
  set ix : ℤ := ⌊x + (w.worldSize : ℚ) / 2⌋ with hix
  set iz : ℤ := ⌊z + (w.worldSize : ℚ) / 2⌋ with hiz
  by_cases h : 0 ≤ ix ∧ ix < (w.worldSize : ℤ) ∧ 0 ≤ iz ∧ iz < (w.worldSize : ℤ)
  · rw [if_pos h, if_neg (by omega)]
  · rw [if_neg h, if_pos (by omega)]

/-! ## Claim C8: axis-aligned building membership -/

/-- Claim C8, confirmed.  isInsideBuilding holds exactly when some
registered footprint contains the point in its axis-aligned box:
center plus or minus half the width and depth horizontally, and from
the base up by the height vertically. -/
theorem isInsideBuilding_iff (bs : List Building) (p : Vec3) :
    isInsideBuilding bs p = true ↔
      ∃ b ∈ bs, b.position.x - b.width / 2 ≤ p.x ∧ p.x ≤ b.position.x + b.width / 2 ∧
        b.position.z - b.depth / 2 ≤ p.z ∧ p.z ≤ b.position.z + b.depth / 2 ∧
        b.position.y ≤ p.y ∧ p.y ≤ b.position.y + b.height := by
  simp [isInsideBuilding, List.any_eq_true]

/-! ## Claim C9: determinism of the seeded construction -/

/-- Claim C9, confirmed.  The construction consumes nothing but the seed
string (through the noise derivation) and the fixed parameters: two
worlds built from equal seeds have pointwise equal height queries. -/
theorem seededDeterminism (noiseOf : String → ℚ → ℚ → ℚ) (sq : ℚ → ℚ) (s1 s2 : String)
    (hs : s1 = s2) (x z : ℚ) :
    getHeightAt (mkWorldSeeded noiseOf sq s1) x z
      = getHeightAt (mkWorldSeeded noiseOf sq s2) x z := by
  subst hs; rfl

/-- Claim C9, witness at the seed the constructor hard-codes. -/
theorem seededDeterminism_witness :
    "skyrim-minecraft-game-v2" = "skyrim-minecraft-game-v2" ∧
      getHeightAt (mkWorldSeeded (fun _ _ _ => 0) (fun _ => 0) "skyrim-minecraft-game-v2") 0 0
        = getHeightAt (mkWorldSeeded (fun _ _ _ => 0) (fun _ => 0) "skyrim-minecraft-game-v2") 0 0 :=
  ⟨rfl, seededDeterminism (fun _ _ _ => 0) (fun _ => 0) _ _ rfl 0 0⟩

/-! ## Claim C10: exit guard is a complete no-op -/

/-- Claim C10, confirmed.  When no building is entered or no return
position is stored, exitBuilding returns the state unchanged: position,
velocity, mode and the active scene are all untouched. -/
theorem exitBuilding_noop (st : TransState)
    (h : st.insideBuilding = none ∨ st.lastOutsidePosition = none) :
    exitBuilding st = st := by
  unfold exitBuilding
  rcases h1 : st.insideBuilding with _ | b <;> rcases h2 : st.lastOutsidePosition with _ | r <;>
    simp_all

/-- Claim C10, witness on a fresh exterior state. -/
theorem exitBuilding_noop_witness :
    (initState ⟨1, 2, 3⟩ [5]).insideBuilding = none ∧
      exitBuilding (initState ⟨1, 2, 3⟩ [5]) = initState ⟨1, 2, 3⟩ [5] :=
  ⟨rfl, exitBuilding_noop (initState ⟨1, 2, 3⟩ [5]) (Or.inl rfl)⟩

end SkyrimVibe
